import Mathlib

/-!
Verification of the clip-sequencing pipeline (scripts/) against its
natural-language specification.

Shallow-embedding conventions used throughout this file:
* Python `float` arithmetic is modelled with `ℚ` (the scripts only add,
  subtract, multiply, divide and compare; no claim here depends on the
  rounding of binary floating point).
* Python strings are modelled as `List Char`; `lc*` helpers below model the
  string methods the scripts use (ASCII case folding; Python's `str.lower`
  also folds non-ASCII letters, which no claim involves).
* Python JSON values are modelled by the inductive `JVal`; a Python `dict`
  is an association list in insertion order.
* Fallible operations are modelled with `Option`/`Except`.
* Recursion over `JVal` (a nested inductive) is driven by an explicit fuel
  argument consumed exactly once per nesting level of the value, so the
  nesting depth `jdepth v` is always enough fuel for the Python semantics.
-/

deriving instance DecidableEq for Except

namespace BRKN

/-! ### Kernel-friendly equality test for rationals

`Rat` structure equality does not evaluate well inside the kernel for
large numerals; comparing the `num`/`den` projections does.  `qeqB` is
only a proof device (used through `qeqB_sound` / `oqeqB_sound`), not part
of the embedding. -/

/-- Bool-valued equality of rationals via the `num`/`den` projections. -/
def qeqB (a b : ℚ) : Bool :=
  a.num == b.num && a.den == b.den

theorem qeqB_sound {a b : ℚ} (h : qeqB a b = true) : a = b := by
  simp only [qeqB, Bool.and_eq_true, beq_iff_eq] at h
  exact Rat.ext h.1 h.2

/-- Bool-valued equality on `Option ℚ`. -/
def oqeqB : Option ℚ → Option ℚ → Bool
  | none, none => true
  | some a, some b => qeqB a b
  | _, _ => false

theorem oqeqB_sound : ∀ {a b : Option ℚ}, oqeqB a b = true → a = b
  | none, none, _ => rfl
  | some _, some _, h => congrArg some (qeqB_sound h)

/-! ### Character-list models of the Python string methods used below -/

/-- Python `str.strip()` whitespace test (ASCII part). -/
def pyWhite (c : Char) : Bool :=
  c.toNat = 32 || (9 ≤ c.toNat && c.toNat ≤ 13)

/-- Python `str.strip()`. -/
def lcTrim (cs : List Char) : List Char :=
  ((cs.dropWhile pyWhite).reverse.dropWhile pyWhite).reverse

/-- ASCII case folding of one character (model of `str.lower`). -/
def lcLowerChar (c : Char) : Char :=
  if 65 ≤ c.toNat && c.toNat ≤ 90 then Char.ofNat (c.toNat + 32) else c

/-- Python `str.lower()`. -/
def lcLower (cs : List Char) : List Char :=
  cs.map lcLowerChar

/-- Split on a separator character; Python `str.split(sep)` semantics
(empty pieces kept, `n + 1` pieces for `n` separators). -/
def lcSplitOn (sep : Char) : List Char → List (List Char)
  | [] => [[]]
  | c :: cs =>
      match lcSplitOn sep cs, decide (c = sep) with
      | r, true => [] :: r
      | [], false => [[c]]
      | h :: t, false => (c :: h) :: t

/-- Bool prefix test on character lists. -/
def lcIsPrefix : List Char → List Char → Bool
  | [], _ => true
  | _ :: _, [] => false
  | a :: as, b :: bs => a = b && lcIsPrefix as bs

/-- Python `str.endswith(suffix)`. -/
def lcEndsWith (cs suffix : List Char) : Bool :=
  lcIsPrefix suffix.reverse cs.reverse

/-- Python slicing `s[:-n]`. -/
def lcDropRight (n : ℕ) (cs : List Char) : List Char :=
  cs.take (cs.length - n)

/-! ### sequence_and_assemble_verbose.py : `parse_time` -/

/-- JSON-like value as handled by the Python scripts.  An `obj` is the
association list of a Python dict in insertion order. -/
inductive JVal where
  | null : JVal
  | bool : Bool → JVal
  | num  : ℚ → JVal
  | str  : String → JVal
  | arr  : List JVal → JVal
  | obj  : List (String × JVal) → JVal

/-- Numeric value of a list of decimal digits (most significant first). -/
def digitsVal (cs : List Char) : ℕ :=
  cs.foldl (fun a c => 10 * a + (c.toNat - 48)) 0

/-- Regex `\d+`: one or more decimal digits. -/
def isDigits (cs : List Char) : Bool :=
  !cs.isEmpty && cs.all Char.isDigit

/-- Value of a fractional digit block read after a decimal point. -/
def fracVal (cs : List Char) : ℚ :=
  (digitsVal cs : ℚ) / (10 : ℚ) ^ cs.length

/-- Unsigned mantissa of Python's `float` grammar: `\d+`, `\d+.\d*` or `.\d+`. -/
def pyUnsigned (cs : List Char) : Option ℚ :=
  match lcSplitOn '.' cs with
  | [a] => if isDigits a then some (digitsVal a) else none
  | [a, b] =>
      if (!a.isEmpty || !b.isEmpty) && a.all Char.isDigit && b.all Char.isDigit
      then some ((digitsVal a : ℚ) + fracVal b) else none
  | _ => none

/-- Optionally signed mantissa of Python's `float` grammar. -/
def pySigned (cs : List Char) : Option ℚ :=
  match cs with
  | '+' :: rest => pyUnsigned rest
  | '-' :: rest => (pyUnsigned rest).map (fun q => -q)
  | _ => pyUnsigned cs

/-- Optionally signed integer exponent of Python's `float` grammar. -/
def pyExp (cs : List Char) : Option ℤ :=
  match cs with
  | '+' :: rest => if isDigits rest then some (digitsVal rest : ℤ) else none
  | '-' :: rest => if isDigits rest then some (-(digitsVal rest : ℤ)) else none
  | _ => if isDigits cs then some (digitsVal cs : ℤ) else none

/-- Model of Python `float(s)` on the decimal grammar
`[ws] [sign] (d+ | d+.d* | .d+) [e [sign] d+] [ws]`, value as a rational.
(The spellings `inf`/`nan` and digit underscores are not modelled and are
treated as unparseable; no claim involves them.  Callers below pass
already-lowercased text, so only `e` is needed as exponent marker.) -/
def pyFloat (cs : List Char) : Option ℚ :=
  match lcSplitOn 'e' (lcTrim cs) with
  | [m] => pySigned m
  | [m, ex] =>
      match pySigned m, pyExp ex with
      | some q, some z => some (q * (10 : ℚ) ^ z)
      | _, _ => none
  | _ => none

/-- Regex `\d+(\.\d+)?`: final group of `TIME_RE`. -/
def isNumChars (cs : List Char) : Bool :=
  match lcSplitOn '.' cs with
  | [a] => isDigits a
  | [a, b] => isDigits a && isDigits b
  | _ => false

/-- Value of a `\d+(\.\d+)?` group as a rational. -/
def decVal (cs : List Char) : ℚ :=
  match lcSplitOn '.' cs with
  | [a] => (digitsVal a : ℚ)
  | [a, b] => (digitsVal a : ℚ) + fracVal b
  | _ => 0

/-- Model of Python matching of
`TIME_RE = ^(?:(\d+):)?(?:(\d{1,2}):)?(\d+(?:\.\d+)?)$`
returning the three captured groups.  With a single colon the leftmost
greedy optional group — the HOURS group — consumes the prefix, because
`(\d+)` matches whenever `(\d{1,2})` could; the minutes group only ever
binds when two colons are present. -/
def timeReMatch (cs : List Char) :
    Option (Option (List Char) × Option (List Char) × List Char) :=
  match lcSplitOn ':' cs with
  | [c] => if isNumChars c then some (none, none, c) else none
  | [a, c] => if isDigits a && isNumChars c then some (some a, none, c) else none
  | [a, b, c] =>
      if isDigits a && isDigits b && decide (b.length ≤ 2) && isNumChars c
      then some (some a, some b, c) else none
  | _ => none

/-- String branch of `parse_time` (sequence_and_assemble_verbose.py):
strip+lower, then the `ms` suffix, then the `s` suffix, then `float(s)`,
then `TIME_RE`. -/
def parse_str (v : List Char) : Option ℚ :=
  let s := lcLower (lcTrim v)
  if lcEndsWith s ['m', 's'] then
    -- `try: return float(s[:-2])/1000.0 except: return None`
    match pyFloat (lcDropRight 2 s) with
    | some q => some (q / 1000)
    | none => none
  else
    let plain : Option ℚ :=
      match pyFloat s with
      | some q => some q
      | none =>
          match timeReMatch s with
          | some (h, m, sec) =>
              some (decVal sec
                    + (match m with | some mg => 60 * decVal mg | none => 0)
                    + (match h with | some hg => 3600 * decVal hg | none => 0))
          | none => none
    if lcEndsWith s ['s'] then
      -- `try: return float(s[:-1]) except: pass`, then fall through
      match pyFloat (lcDropRight 1 s) with
      | some q => some q
      | none => plain
    else plain

/-- Synonym keys probed by `parse_time` on a dict, in source order. -/
def timeSynonymKeys : List String :=
  ["value", "val", "sec", "secs", "second", "seconds", "s", "ms",
   "start", "end", "t0", "t1", "time", "timestamp", "duration"]

/-- Fuel-indexed model of `parse_time` (sequence_and_assemble_verbose.py).
Fuel is consumed exactly once per nesting level of the value. -/
def parse_time_fuel : ℕ → JVal → Option ℚ
  | 0, _ => none
  | fuel + 1, v =>
      match v with
      | .null => none
      | .bool b => some (if b then 1 else 0)   -- Python bool is an int
      | .num q => some q
      | .str s => parse_str s.data
      | .obj fields =>
          -- `for k in (...synonyms...): out = parse_time(v.get(k)); if out is not None: return out`
          match timeSynonymKeys.findSome? (fun k =>
                  match fields.lookup k with
                  | some w => parse_time_fuel fuel w
                  | none => none) with
          | some q => some q
          | none =>
              match fields with
              | [(_, w)] => parse_time_fuel fuel w          -- `if len(v)==1`
              | _ => fields.findSome? (fun kw => parse_time_fuel fuel kw.2)
      | .arr [] => none
      | .arr (w :: _) => parse_time_fuel fuel w

mutual

/-- Nesting depth of a `JVal`; enough fuel for `parse_time_fuel`. -/
def jdepth : JVal → ℕ
  | .null => 1
  | .bool _ => 1
  | .num _ => 1
  | .str _ => 1
  | .arr vs => jdepthL vs + 1
  | .obj fs => jdepthF fs + 1

/-- Depth of the deepest element of an array. -/
def jdepthL : List JVal → ℕ
  | [] => 0
  | v :: vs => max (jdepth v) (jdepthL vs)

/-- Depth of the deepest value of an object. -/
def jdepthF : List (String × JVal) → ℕ
  | [] => 0
  | (_, v) :: fs => max (jdepth v) (jdepthF fs)

end

/-- `parse_time` with enough fuel for the value's nesting depth. -/
def parse_time (v : JVal) : Option ℚ :=
  parse_time_fuel (jdepth v) v

set_option maxRecDepth 2048 in
/-- C1: for every time value, every parseable representation accepted by
`parse_time` resolves to the same float seconds; in particular `"1:02.5"`
resolves to `62.5`.  The code disagrees on colon strings: the greedy first
regex group reads the single-colon prefix of `"1:02.5"` as HOURS, giving
`3602.5` instead of the claimed `62.5` (minutes), while all the other
representations of 62.5 agree with each other. -/
theorem C1_time_representations :
    parse_time (.str "1:02.5") = some (7205 / 2) ∧
    parse_time (.num (125 / 2)) = some (125 / 2) ∧
    parse_time (.str "62.5") = some (125 / 2) ∧
    parse_time (.str "62.5s") = some (125 / 2) ∧
    parse_time (.str "62500ms") = some (125 / 2) ∧
    parse_time (.obj [("seconds", .num (125 / 2))]) = some (125 / 2) ∧
    parse_time (.arr [.num (125 / 2)]) = some (125 / 2) ∧
    parse_time (.str "0:1:02.5") = some (125 / 2) ∧
    (7205 / 2 : ℚ) ≠ 125 / 2 := by
  refine ⟨oqeqB_sound (by with_unfolding_all decide),
          oqeqB_sound (by with_unfolding_all decide),
          oqeqB_sound (by with_unfolding_all decide),
          oqeqB_sound (by with_unfolding_all decide),
          oqeqB_sound (by with_unfolding_all decide),
          oqeqB_sound (by with_unfolding_all decide),
          oqeqB_sound (by with_unfolding_all decide),
          oqeqB_sound (by with_unfolding_all decide),
          by norm_num⟩

/-! ### sequence_and_assemble_verbose.py : `apply_sequential_fallback` -/

/-- One raw item as built by `load_items`
(sequence_and_assemble_verbose.py): source metadata file, resolved video
path, the two parsed time bounds, and the provenance labels. -/
structure VItem where
  meta : String
  path : Option String
  t0 : Option ℚ
  t1 : Option ℚ
  src0 : String
  src1 : String
deriving Repr, DecidableEq

/-- `Path(p).name`: last slash-separated component, trailing separators
dropped (the scripts run `pathlib` path joins and read only `.name`). -/
def pathName (p : String) : String :=
  ⟨((lcSplitOn '/' p.data).filter (fun c => !c.isEmpty)).getLastD []⟩

/-- Sort key of the fallback:
`Path(i["path"]).name if i["path"] else i["meta"]`
(Python truthiness: `None` and `""` are both falsy). -/
def fallbackKey (i : VItem) : String :=
  match i.path with
  | some p => if p = "" then i.meta else pathName p
  | none => i.meta

/-- Bool comparison handed to the (stable) sort. -/
def fallbackLe (a b : VItem) : Bool :=
  decide (fallbackKey a ≤ fallbackKey b)

/-- `any(i["t0"] is None or i["t1"] is None for i in items)` -/
def needsFallback (items : List VItem) : Bool :=
  items.any (fun i => i.t0.isNone || i.t1.isNone)

/-- The assignment loop of `apply_sequential_fallback`: starting at time
`t`, each record in turn gets the window `[t, t + D)` and `t` advances by
`D`.  (The Python lines re-writing `src0`/`src1` through
`it.get("src0", ...)` are no-ops because `load_items` always sets those
keys; the items keep their labels.) -/
def assignSeq (D : ℚ) : ℚ → List VItem → List VItem
  | _, [] => []
  | t, it :: rest =>
      { it with t0 := some t, t1 := some (t + D) } :: assignSeq D (t + D) rest

/-- `apply_sequential_fallback` (sequence_and_assemble_verbose.py): if any
item lacks a numeric `t0`/`t1`, sort the whole batch by resolved file name
and assign sequential windows of width `D = DEFAULT_DUR` starting at 0;
otherwise return the batch unchanged. -/
def apply_sequential_fallback (D : ℚ) (items : List VItem) : List VItem × Bool :=
  if needsFallback items then
    (assignSeq D 0 (items.mergeSort fallbackLe), true)
  else (items, false)

/-- The identity of an item apart from its time bounds. -/
def vStrip (i : VItem) : String × Option String × String × String :=
  (i.meta, i.path, i.src0, i.src1)

theorem assignSeq_getElem? (D : ℚ) :
    ∀ (l : List VItem) (t : ℚ) (k : ℕ),
      (assignSeq D t l)[k]? =
        (l[k]?).map (fun it =>
          { it with t0 := some (t + k * D), t1 := some (t + (k + 1) * D) })
  | [], _, _ => rfl
  | it :: rest, t, 0 => by simp [assignSeq]
  | it :: rest, t, k + 1 => by
      have ih := assignSeq_getElem? D rest (t + D) k
      simp only [assignSeq, List.getElem?_cons_succ, ih]
      cases rest[k]? with
      | none => rfl
      | some w =>
          simp only [Option.map_some']
          congr 2 <;> push_cast <;> ring_nf

theorem assignSeq_map_strip (D : ℚ) :
    ∀ (t : ℚ) (l : List VItem), (assignSeq D t l).map vStrip = l.map vStrip
  | _, [] => rfl
  | t, it :: rest => by
      simp only [assignSeq, List.map_cons, assignSeq_map_strip D (t + D) rest]
      rfl

theorem assignSeq_map_key (D : ℚ) :
    ∀ (t : ℚ) (l : List VItem), (assignSeq D t l).map fallbackKey = l.map fallbackKey
  | _, [] => rfl
  | t, it :: rest => by
      simp only [assignSeq, List.map_cons, assignSeq_map_key D (t + D) rest]
      rfl

theorem fallbackLe_trans (a b c : VItem)
    (hab : fallbackLe a b) (hbc : fallbackLe b c) : fallbackLe a c := by
  simp only [fallbackLe, decide_eq_true_eq] at *
  exact le_trans hab hbc

theorem fallbackLe_total (a b : VItem) : fallbackLe a b || fallbackLe b a := by
  simp only [fallbackLe]
  rcases le_total (fallbackKey a) (fallbackKey b) with h | h <;> simp [h]

/-- C2: if at least one record of the batch lacks a resolvable start or
end time, the whole output batch is re-timed: the records (identities
unchanged) are ordered by resolved file name and record `k` receives
`t0 = k·D`, `t1 = (k+1)·D` for the fixed default duration `D`; if every
record has both times, nothing is touched. -/
theorem C2_sequential_fallback_all_or_nothing (D : ℚ) (items : List VItem) :
    (needsFallback items = false → apply_sequential_fallback D items = (items, false)) ∧
    (needsFallback items = true →
      (apply_sequential_fallback D items).2 = true ∧
      ((apply_sequential_fallback D items).1.map vStrip).Perm (items.map vStrip) ∧
      ((apply_sequential_fallback D items).1.map fallbackKey).Pairwise (· ≤ ·) ∧
      ∀ k (h : k < (apply_sequential_fallback D items).1.length),
        ((apply_sequential_fallback D items).1.get ⟨k, h⟩).t0 = some (k * D) ∧
        ((apply_sequential_fallback D items).1.get ⟨k, h⟩).t1 = some ((k + 1) * D)) := by
  constructor
  · intro h
    simp [apply_sequential_fallback, h]
  · intro h
    have hout : (apply_sequential_fallback D items).1
        = assignSeq D 0 (items.mergeSort fallbackLe) := by
      simp [apply_sequential_fallback, h]
    refine ⟨by simp [apply_sequential_fallback, h], ?_, ?_, ?_⟩
    · rw [hout, assignSeq_map_strip]
      exact (List.mergeSort_perm items fallbackLe).map vStrip
    · rw [hout, assignSeq_map_key]
      rw [List.pairwise_map]
      have hs := List.sorted_mergeSort
        (fun a b c => fallbackLe_trans a b c) fallbackLe_total items
      exact hs.imp (fun hab => by
        simpa [fallbackLe, decide_eq_true_eq] using hab)
    · intro k hk
      have hg : (apply_sequential_fallback D items).1[k]?
          = some ((apply_sequential_fallback D items).1.get ⟨k, hk⟩) := by
        simp [List.getElem?_eq_getElem, hk, List.get_eq_getElem]
      have hg2 : (assignSeq D 0 (items.mergeSort fallbackLe))[k]?
          = some ((apply_sequential_fallback D items).1.get ⟨k, hk⟩) := by
        rw [← hout]; exact hg
      rw [assignSeq_getElem? D (items.mergeSort fallbackLe) 0 k] at hg2
      rcases ho : (items.mergeSort fallbackLe)[k]? with _ | w
      · rw [ho] at hg2; simp at hg2
      · rw [ho] at hg2
        simp only [Option.map_some', Option.some_inj] at hg2
        constructor
        · rw [← hg2]; simp
        · rw [← hg2]; simp

/-- Concrete batch exercising the fallback: the second item lacks `t0`. -/
def C2ex : List VItem :=
  [⟨"m1.json", some "b.mp4", some 1, some 2, "top:emb_start", "top:emb_end"⟩,
   ⟨"m2.json", some "a.mp4", none, some 3, "missing", "top:emb_end"⟩]

theorem C2_sequential_fallback_witness :
    needsFallback C2ex = true ∧
    ((apply_sequential_fallback 2 C2ex).2 = true ∧
     ((apply_sequential_fallback 2 C2ex).1.map vStrip).Perm (C2ex.map vStrip) ∧
     ((apply_sequential_fallback 2 C2ex).1.map fallbackKey).Pairwise (· ≤ ·) ∧
     ∀ k (h : k < (apply_sequential_fallback 2 C2ex).1.length),
       ((apply_sequential_fallback 2 C2ex).1.get ⟨k, h⟩).t0 = some ((k : ℚ) * 2) ∧
       ((apply_sequential_fallback 2 C2ex).1.get ⟨k, h⟩).t1 = some (((k : ℚ) + 1) * 2)) :=
  ⟨by decide, (C2_sequential_fallback_all_or_nothing 2 C2ex).2 (by decide)⟩

/-! ### smart_sequence_clips.py : scoring, ordering, transitions -/

/-- Python `str.split()` with no argument: split on whitespace runs,
dropping empty pieces.  `lcSplitWhite` is the raw split on single
whitespace characters. -/
def lcSplitWhite : List Char → List (List Char)
  | [] => [[]]
  | c :: cs =>
      match lcSplitWhite cs, pyWhite c with
      | r, true => [] :: r
      | [], false => [[c]]
      | h :: t, false => (c :: h) :: t

/-- Python `s.lower().split()` as used by `_similar_subjects`. -/
def pyWords (cs : List Char) : List (List Char) :=
  (lcSplitWhite (lcLower cs)).filter (fun w => !w.isEmpty)

/-- Descriptive attributes of one analyzed frame (the `start`/`end` dict
of the analyze_clip metadata).  The Python code reads every attribute
with `.get(key, "")` / `.get("dominant_colors", [])`, so a missing
attribute is represented by the empty string / empty list. -/
structure FrameAttrs where
  subject : String
  scene_type : String
  lighting : String
  motion : String
  dominant_colors : List String
deriving Repr, DecidableEq

/-- One clip record as loaded by `ClipAnalyzer.load_metadata`. -/
structure Clip where
  file : String
  path : Option String
  start_frame : FrameAttrs
  end_frame : FrameAttrs
  base : String
deriving Repr, DecidableEq

/-- `_similar_subjects`: both subjects non-empty and sharing at least one
lowercased whitespace-split word. -/
def similar_subjects (a b : String) : Bool :=
  if a = "" ∨ b = "" then false
  else (pyWords a.data).any (fun w => (pyWords b.data).contains w)

/-- The `bright` vocabulary of `_compatible_lighting`. -/
def brightSet : List String := ["bright", "daylight", "sunny", "well-lit"]

/-- The `dim` vocabulary of `_compatible_lighting`. -/
def dimSet : List String := ["dim", "dark", "low-light", "evening", "night"]

/-- `_compatible_lighting`: both in the bright family or both dim. -/
def compatible_lighting (a b : String) : Bool :=
  decide ((a ∈ brightSet ∧ b ∈ brightSet) ∨ (a ∈ dimSet ∧ b ∈ dimSet))

/-- The `slow` vocabulary of `_motion_compatibility`. -/
def slow_motions : List String := ["slow", "gentle", "calm", "still", "steady"]

/-- The `fast` vocabulary of `_motion_compatibility`. -/
def fast_motions : List String := ["fast", "quick", "rapid", "dynamic", "energetic"]

/-- `_motion_compatibility`. -/
def motion_compatibility (a b : String) : ℚ :=
  if a = "" ∨ b = "" then 1/2
  else if a = b then 1
  else if a ∈ slow_motions ∧ b ∈ slow_motions then 4/5
  else if a ∈ fast_motions ∧ b ∈ fast_motions then 4/5
  else if (a ∈ slow_motions ∧ b ∈ fast_motions) ∨
          (a ∈ fast_motions ∧ b ∈ slow_motions) then 1/5
  else 1/2

/-- `_color_harmony`: `len(set a ∩ set b) / min(len a, len b)`, `0.5` when
either side is empty. -/
def color_harmony (as bs : List String) : ℚ :=
  if as.isEmpty ∨ bs.isEmpty then 1/2
  else if min as.length bs.length = 0 then 1/2
  else ((as.toFinset ∩ bs.toFinset).card : ℚ) / (min as.length bs.length : ℚ)

/-- Subject-continuity factor: 0.3 on equality, 0.15 on a shared word. -/
def subject_score (a b : String) : ℚ :=
  if a = b then 3/10 else if similar_subjects a b then 3/20 else 0

/-- Scene-type factor: 0.25 on equality only. -/
def scene_score (a b : String) : ℚ :=
  if a = b then 1/4 else 0

/-- Lighting factor: 0.2 on equality, 0.1 on same coarse family. -/
def lighting_score (a b : String) : ℚ :=
  if a = b then 1/5 else if compatible_lighting a b then 1/10 else 0

/-- `calculate_transition_score`: weighted sum of the five factors between
clip `a`'s end frame and clip `b`'s start frame, clamped to 1. -/
def calculate_transition_score (a b : Clip) : ℚ :=
  min 1 (subject_score a.end_frame.subject b.start_frame.subject
    + scene_score a.end_frame.scene_type b.start_frame.scene_type
    + lighting_score a.end_frame.lighting b.start_frame.lighting
    + motion_compatibility a.end_frame.motion b.start_frame.motion * (3/20)
    + color_harmony a.end_frame.dominant_colors b.start_frame.dominant_colors * (1/10))

/-- Inner selection loop of `find_optimal_sequence`: scan the remaining
clips keeping the first one whose score strictly beats the current best;
return the winner and the other clips in their original order.
(`best_clip` is initialised from the first candidate because every score
is ≥ 0 > −1; the Python `if best_clip:` test is always truthy here
because loaded clip dicts are non-empty.) -/
def selectBest (cur best : Clip) (bestScore : ℚ) : List Clip → Clip × List Clip
  | [] => (best, [])
  | x :: xs =>
      if bestScore < calculate_transition_score cur x then
        ((selectBest cur x (calculate_transition_score cur x) xs).1,
         best :: (selectBest cur x (calculate_transition_score cur x) xs).2)
      else
        ((selectBest cur best bestScore xs).1,
         x :: (selectBest cur best bestScore xs).2)

/-- Fuelled greedy loop (`while remaining:`); the fuel is the number of
remaining clips, which decreases by exactly one per iteration. -/
def greedyLoop : ℕ → Clip → List Clip → List Clip
  | 0, _, _ => []
  | _ + 1, _, [] => []
  | n + 1, cur, x :: xs =>
      (selectBest cur x (calculate_transition_score cur x) xs).1 ::
        greedyLoop n (selectBest cur x (calculate_transition_score cur x) xs).1
          (selectBest cur x (calculate_transition_score cur x) xs).2

/-- `find_optimal_sequence`: batches of at most one clip are returned
unchanged; otherwise the first record seeds the tour and the greedy loop
appends the best-scoring remaining clip until none remain. -/
def find_optimal_sequence (clips : List Clip) : List Clip :=
  match clips with
  | [] => []
  | [c] => [c]
  | c :: rest => c :: greedyLoop rest.length c rest

/-- One transition record of `generate_transitions`. -/
structure Transition where
  from_clip : String
  to_clip : String
  type : String
  duration : ℚ
  score : ℚ
deriving Repr, DecidableEq

/-- Classification of `generate_transitions`: type and duration from the
score. -/
def classifyTransition (score : ℚ) : String × ℚ :=
  if 4/5 < score then ("cut", 0)
  else if 1/2 < score then ("crossfade", 1/2)
  else ("fade_black", 3/10)

/-- `generate_transitions`: one classified transition per consecutive
pair of the sequence. -/
def generate_transitions : List Clip → List Transition
  | a :: b :: rest =>
      { from_clip := a.base, to_clip := b.base,
        type := (classifyTransition (calculate_transition_score a b)).1,
        duration := (classifyTransition (calculate_transition_score a b)).2,
        score := calculate_transition_score a b } :: generate_transitions (b :: rest)
  | _ => []

theorem selectBest_length (cur : Clip) :
    ∀ (l : List Clip) (best : Clip) (s : ℚ),
      (selectBest cur best s l).2.length = l.length
  | [], _, _ => rfl
  | x :: xs, best, s => by
      simp only [selectBest]
      by_cases h : s < calculate_transition_score cur x
      · simp [if_pos h, selectBest_length cur xs]
      · simp [if_neg h, selectBest_length cur xs]

theorem selectBest_perm (cur : Clip) :
    ∀ (l : List Clip) (best : Clip) (s : ℚ),
      ((selectBest cur best s l).1 :: (selectBest cur best s l).2).Perm (best :: l)
  | [], best, s => by simp [selectBest]
  | x :: xs, best, s => by
      simp only [selectBest]
      by_cases h : s < calculate_transition_score cur x
      · simp only [if_pos h]
        exact (List.Perm.swap best _ _).trans
          ((selectBest_perm cur xs x (calculate_transition_score cur x)).cons best)
      · simp only [if_neg h]
        exact ((List.Perm.swap x _ _).trans
          ((selectBest_perm cur xs best s).cons x)).trans
          (List.Perm.swap best x xs)

theorem greedyLoop_perm :
    ∀ (n : ℕ) (cur : Clip) (l : List Clip), l.length = n →
      (greedyLoop n cur l).Perm l
  | 0, _, l, h => by
      rw [List.length_eq_zero] at h
      subst h
      exact List.Perm.refl _
  | n + 1, cur, [], _ => by simp [greedyLoop]
  | n + 1, cur, x :: xs, h => by
      simp only [greedyLoop]
      have hlen : (selectBest cur x (calculate_transition_score cur x) xs).2.length = n := by
        rw [selectBest_length cur xs]
        simpa using h
      have ih := greedyLoop_perm n
        (selectBest cur x (calculate_transition_score cur x) xs).1
        (selectBest cur x (calculate_transition_score cur x) xs).2 hlen
      exact (ih.cons _).trans (selectBest_perm cur xs x (calculate_transition_score cur x))

theorem generate_transitions_length :
    ∀ l : List Clip, (generate_transitions l).length = l.length - 1
  | [] => rfl
  | [_] => rfl
  | a :: b :: rest => by
      simp only [generate_transitions, List.length_cons,
        generate_transitions_length (b :: rest)]
      omega

/-- C3: on every input batch, the optimizer returns a permutation of all
records with the first input record kept in position 0, and the
transition generator returns exactly `N − 1` transitions (0 for `N ≤ 1`,
by natural subtraction). -/
theorem C3_optimizer_permutation_and_transition_count (clips : List Clip) :
    (find_optimal_sequence clips).Perm clips ∧
    (find_optimal_sequence clips).head? = clips.head? ∧
    (generate_transitions (find_optimal_sequence clips)).length = clips.length - 1 := by
  match clips with
  | [] => exact ⟨List.Perm.refl _, rfl, rfl⟩
  | [c] => exact ⟨List.Perm.refl _, rfl, rfl⟩
  | c :: d :: rest =>
      have hperm : (find_optimal_sequence (c :: d :: rest)).Perm (c :: d :: rest) :=
        (greedyLoop_perm (d :: rest).length c (d :: rest) rfl).cons c
      refine ⟨hperm, rfl, ?_⟩
      rw [generate_transitions_length, hperm.length_eq]

/-- A clip with every descriptive attribute missing. -/
def emptyClip : Clip :=
  ⟨"e.mp4", some "e.mp4", ⟨"", "", "", "", []⟩, ⟨"", "", "", "", []⟩, "e"⟩

/-- C5 (counterexample): with both subjects missing the subject factor
contributes its FULL weight 0.3 (two empty strings compare equal), not
the claimed half 0.15; consequently two fully-attribute-less clips score
0.875, not the five neutral midpoints summing to 0.5. -/
theorem C5_counterexample_missing_subject_full_weight :
    subject_score "" "" = 3/10 ∧ ¬subject_score "" "" = 3/20 ∧
    calculate_transition_score emptyClip emptyClip = 7/8 := by
  refine ⟨by norm_num [subject_score], by norm_num [subject_score],
    qeqB_sound (by with_unfolding_all decide)⟩

/-- C5 (amended): only the motion and colour factors fall back to the
neutral half-weight contribution (0.075 and 0.05) on missing data; the
string-equality factors (subject, scene type, lighting) contribute their
FULL weight when both values are missing (equal empty strings) and zero
when exactly one is missing. -/
theorem C5_amended_neutral_midpoints
    (sa sb sc1 sc2 la lb ma mb : String) (ca cb : List String) :
    ((ma = "" ∨ mb = "") → motion_compatibility ma mb * (3/20) = 3/40) ∧
    ((ca = [] ∨ cb = []) → color_harmony ca cb * (1/10) = 1/20) ∧
    (sa = "" ∧ sb = "" → subject_score sa sb = 3/10) ∧
    ((sa = "" ∧ sb ≠ "") ∨ (sa ≠ "" ∧ sb = "") → subject_score sa sb = 0) ∧
    (sc1 = "" ∧ sc2 = "" → scene_score sc1 sc2 = 1/4) ∧
    ((sc1 = "" ∧ sc2 ≠ "") ∨ (sc1 ≠ "" ∧ sc2 = "") → scene_score sc1 sc2 = 0) ∧
    (la = "" ∧ lb = "" → lighting_score la lb = 1/5) ∧
    ((la = "" ∧ lb ≠ "") ∨ (la ≠ "" ∧ lb = "") → lighting_score la lb = 0) := by
  refine ⟨?_, ?_, ?_, ?_, ?_, ?_, ?_, ?_⟩
  · intro h
    rw [motion_compatibility, if_pos h]
    norm_num
  · intro h
    rcases h with h | h <;> subst h <;> rw [color_harmony] <;>
      rw [if_pos (by simp)] <;> norm_num
  · rintro ⟨h1, h2⟩
    subst h1; subst h2
    rw [subject_score, if_pos rfl]
  · rintro (⟨h1, h2⟩ | ⟨h1, h2⟩)
    · subst h1
      rw [subject_score, if_neg (fun he => h2 he.symm),
        similar_subjects, if_pos (Or.inl rfl)]
      simp
    · subst h2
      rw [subject_score, if_neg h1, similar_subjects, if_pos (Or.inr rfl)]
      simp
  · rintro ⟨h1, h2⟩
    subst h1; subst h2
    rw [scene_score, if_pos rfl]
  · rintro (⟨h1, h2⟩ | ⟨h1, h2⟩)
    · subst h1
      exact if_neg (fun he => h2 he.symm)
    · subst h2
      exact if_neg h1
  · rintro ⟨h1, h2⟩
    subst h1; subst h2
    rw [lighting_score, if_pos rfl]
  · rintro (⟨h1, h2⟩ | ⟨h1, h2⟩)
    · subst h1
      rw [lighting_score, if_neg (fun he => h2 he.symm),
        if_neg (by simp [compatible_lighting, brightSet, dimSet])]
    · subst h2
      rw [lighting_score, if_neg h1,
        if_neg (by simp [compatible_lighting, brightSet, dimSet])]

theorem C5_neutral_midpoints_witness :
    motion_compatibility "" "" * (3/20) = 3/40 ∧
    color_harmony [] [] * (1/10) = 1/20 ∧
    subject_score "" "" = 3/10 ∧
    subject_score "" "person" = 0 ∧
    scene_score "" "" = 1/4 ∧
    scene_score "" "kitchen" = 0 ∧
    lighting_score "" "" = 1/5 ∧
    lighting_score "" "bright" = 0 :=
  ⟨(C5_amended_neutral_midpoints "" "" "" "" "" "" "" "" [] []).1 (Or.inl rfl),
   (C5_amended_neutral_midpoints "" "" "" "" "" "" "" "" [] []).2.1 (Or.inl rfl),
   (C5_amended_neutral_midpoints "" "" "" "" "" "" "" "" [] []).2.2.1 ⟨rfl, rfl⟩,
   (C5_amended_neutral_midpoints "" "person" "" "" "" "" "" "" [] []).2.2.2.1
     (Or.inl ⟨rfl, by decide⟩),
   (C5_amended_neutral_midpoints "" "" "" "" "" "" "" "" [] []).2.2.2.2.1 ⟨rfl, rfl⟩,
   (C5_amended_neutral_midpoints "" "" "" "kitchen" "" "" "" "" [] []).2.2.2.2.2.1
     (Or.inl ⟨rfl, by decide⟩),
   (C5_amended_neutral_midpoints "" "" "" "" "" "" "" "" [] []).2.2.2.2.2.2.1 ⟨rfl, rfl⟩,
   (C5_amended_neutral_midpoints "" "" "" "" "" "bright" "" "" [] []).2.2.2.2.2.2.2
     (Or.inl ⟨rfl, by decide⟩)⟩

/-! C7: the three-clip end-to-end scenario of the spec. -/

/-- Clip A: person / bedroom / bright (other attributes absent). -/
def clipA : Clip :=
  ⟨"a.mp4", some "a.mp4", ⟨"person", "bedroom", "bright", "", []⟩,
   ⟨"person", "bedroom", "bright", "", []⟩, "a"⟩

/-- Clip B: person / bedroom / dim. -/
def clipB : Clip :=
  ⟨"b.mp4", some "b.mp4", ⟨"person", "bedroom", "dim", "", []⟩,
   ⟨"person", "bedroom", "dim", "", []⟩, "b"⟩

/-- Clip C: object / kitchen / bright. -/
def clipC : Clip :=
  ⟨"c.mp4", some "c.mp4", ⟨"object", "kitchen", "bright", "", []⟩,
   ⟨"object", "kitchen", "bright", "", []⟩, "c"⟩

/-- C7: on the batch [A, B, C] seeded at A the optimizer returns exactly
[A, B, C] with two transitions; A→B scores strictly above 0.5 and is a
crossfade, B→C scores at most 0.5 and is a fade to black. -/
theorem C7_three_clip_scenario :
    find_optimal_sequence [clipA, clipB, clipC] = [clipA, clipB, clipC] ∧
    (generate_transitions (find_optimal_sequence [clipA, clipB, clipC])).length = 2 ∧
    1/2 < calculate_transition_score clipA clipB ∧
    calculate_transition_score clipB clipC ≤ 1/2 ∧
    (generate_transitions (find_optimal_sequence [clipA, clipB, clipC])).map Transition.type
      = ["crossfade", "fade_black"] := by
  refine ⟨?_, ?_, ?_, ?_, ?_⟩ <;> with_unfolding_all decide

/-! C8: score bounds and the self-transition score. -/

theorem subject_score_nonneg (a b : String) : 0 ≤ subject_score a b := by
  rw [subject_score]; split_ifs <;> norm_num

theorem scene_score_nonneg (a b : String) : 0 ≤ scene_score a b := by
  rw [scene_score]; split_ifs <;> norm_num

theorem lighting_score_nonneg (a b : String) : 0 ≤ lighting_score a b := by
  rw [lighting_score]; split_ifs <;> norm_num

theorem motion_compatibility_nonneg (a b : String) : 0 ≤ motion_compatibility a b := by
  rw [motion_compatibility]; split_ifs <;> norm_num

theorem color_harmony_nonneg (as bs : List String) : 0 ≤ color_harmony as bs := by
  rw [color_harmony]
  split_ifs
  · norm_num
  · norm_num
  · exact div_nonneg (Nat.cast_nonneg _)
      (le_min (Nat.cast_nonneg _) (Nat.cast_nonneg _))

/-- C8 (amended): every transition score lies in [0, 1]; and a clip whose
end-frame attributes equal its start-frame attributes, all non-empty,
with a duplicate-free colour list, scores exactly 1 against itself. -/
theorem C8_amended_score_bounds_and_self_score :
    (∀ a b : Clip, 0 ≤ calculate_transition_score a b ∧ calculate_transition_score a b ≤ 1) ∧
    (∀ a : Clip, a.end_frame = a.start_frame →
      a.start_frame.subject ≠ "" → a.start_frame.scene_type ≠ "" →
      a.start_frame.lighting ≠ "" → a.start_frame.motion ≠ "" →
      a.start_frame.dominant_colors ≠ [] → a.start_frame.dominant_colors.Nodup →
      calculate_transition_score a a = 1) := by
  constructor
  · intro a b
    refine ⟨?_, min_le_left _ _⟩
    rw [calculate_transition_score]
    refine le_min (by norm_num) ?_
    have h1 := subject_score_nonneg a.end_frame.subject b.start_frame.subject
    have h2 := scene_score_nonneg a.end_frame.scene_type b.start_frame.scene_type
    have h3 := lighting_score_nonneg a.end_frame.lighting b.start_frame.lighting
    have h4 := motion_compatibility_nonneg a.end_frame.motion b.start_frame.motion
    have h5 := color_harmony_nonneg a.end_frame.dominant_colors b.start_frame.dominant_colors
    have h4' : 0 ≤ motion_compatibility a.end_frame.motion b.start_frame.motion * (3/20) := by
      positivity
    have h5' : 0 ≤ color_harmony a.end_frame.dominant_colors b.start_frame.dominant_colors
        * (1/10) := by positivity
    linarith
  · intro a hEq hs hsc hl hm hc hnd
    rw [calculate_transition_score, hEq]
    have hmot : motion_compatibility a.start_frame.motion a.start_frame.motion = 1 := by
      rw [motion_compatibility, if_neg (fun h => hm (h.elim id id)), if_pos rfl]
    have hcol : color_harmony a.start_frame.dominant_colors a.start_frame.dominant_colors
        = 1 := by
      have hlen : a.start_frame.dominant_colors.length ≠ 0 := by
        simpa [List.length_eq_zero] using hc
      rw [color_harmony,
        if_neg (fun h => hc (by simpa [List.isEmpty_iff] using h.elim id id)),
        if_neg (by simpa [min_self] using hlen)]
      rw [Finset.inter_self, List.toFinset_card_of_nodup hnd, min_self]
      exact div_self (by exact_mod_cast hlen)
    rw [subject_score, if_pos rfl, scene_score, if_pos rfl, lighting_score, if_pos rfl,
      hmot, hcol]
    norm_num

/-- A self-identical clip whose colour list repeats `red`: the duplicate
makes `len(set) = 1 < 2 = min(len, len)`, so the colour factor is 0.5 and
the self-score is 0.95, falsifying the unqualified `score(a,a) = 1`. -/
def dupClip : Clip :=
  ⟨"d.mp4", some "d.mp4", ⟨"person", "bedroom", "bright", "slow", ["red", "red"]⟩,
   ⟨"person", "bedroom", "bright", "slow", ["red", "red"]⟩, "d"⟩

theorem C8_counterexample_duplicate_colors :
    dupClip.start_frame.subject ≠ "" ∧ dupClip.start_frame.scene_type ≠ "" ∧
    dupClip.start_frame.lighting ≠ "" ∧ dupClip.start_frame.motion ≠ "" ∧
    dupClip.start_frame.dominant_colors ≠ [] ∧ dupClip.end_frame = dupClip.start_frame ∧
    calculate_transition_score dupClip dupClip = 19/20 ∧ (19/20 : ℚ) ≠ 1 :=
  ⟨by decide, by decide, by decide, by decide, by decide, rfl,
   qeqB_sound (by with_unfolding_all decide), by norm_num⟩

/-- A self-identical clip with distinct colours, for the witness. -/
def okClip : Clip :=
  ⟨"k.mp4", some "k.mp4", ⟨"person", "bedroom", "bright", "slow", ["red", "blue"]⟩,
   ⟨"person", "bedroom", "bright", "slow", ["red", "blue"]⟩, "k"⟩

theorem C8_score_bounds_witness :
    (0 ≤ calculate_transition_score clipA clipC ∧
      calculate_transition_score clipA clipC ≤ 1) ∧
    okClip.end_frame = okClip.start_frame ∧
    okClip.start_frame.subject ≠ "" ∧ okClip.start_frame.scene_type ≠ "" ∧
    okClip.start_frame.lighting ≠ "" ∧ okClip.start_frame.motion ≠ "" ∧
    okClip.start_frame.dominant_colors ≠ [] ∧ okClip.start_frame.dominant_colors.Nodup ∧
    calculate_transition_score okClip okClip = 1 :=
  ⟨(C8_amended_score_bounds_and_self_score).1 clipA clipC,
   rfl, by decide, by decide, by decide, by decide, by decide, by decide,
   (C8_amended_score_bounds_and_self_score).2 okClip rfl (by decide) (by decide)
     (by decide) (by decide) (by decide) (by decide)⟩

/-! ### smart_loop_trimmer.py : `find_clean_motion_segment` -/

/-- Probe ladder of the start-trim scan: `[0.2, 0.4, 0.6, 0.8, 1.0]`. -/
def startLadder : List ℚ := [1/5, 2/5, 3/5, 4/5, 1]

/-- Start-trim scan over the ladder prefix below 80% of the duration:
first probed time whose similarity to the reference frame drops below
0.85 (`none` means the probe's frame extraction raised and the ladder
step is skipped, `except: pass`). -/
def scanStart (probe : ℚ → Option ℚ) : List ℚ → Option ℚ
  | [] => none
  | t :: ts =>
      match probe t with
      | some s => if s < 17/20 then some t else scanStart probe ts
      | none => scanStart probe ts

/-- `np.arange(a, b, step)` for a positive step: `a + k·step` for
`0 ≤ k < ⌈(b − a)/step⌉`. -/
def arangeTimes (a b step : ℚ) : List ℚ :=
  (List.range (⌈(b - a) / step⌉.toNat)).map (fun k => a + step * k)

/-- End-trim scan: fold `(motion_end, max_difference)` over the sample
times; a probe with similarity `s` has difference `1 − s`, and a new
strict maximum moves `motion_end` to the probe time plus the 0.2s buffer.
Failed extractions are skipped. -/
def scanEnd (probe : ℚ → Option ℚ) : List ℚ → ℚ × ℚ → ℚ × ℚ
  | [], st => st
  | t :: ts, (me, md) =>
      match probe t with
      | some s =>
          if md < 1 - s then scanEnd probe ts (t + 1/5, 1 - s)
          else scanEnd probe ts (me, md)
      | none => scanEnd probe ts (me, md)

/-- The three sequential bound clamps at the end of
`find_clean_motion_segment`:
`motion_start = max(motion_start, 0.05·d)`;
`motion_end = min(motion_end, 0.85·d)`; then
`motion_end = max(motion_end, motion_start + 1.0)`;
returning `(motion_start, motion_end − motion_start, max_difference)`. -/
def clampBounds (d ms0 me0 md : ℚ) : ℚ × ℚ × ℚ :=
  (max ms0 (d / 20),
   max (min me0 (17/20 * d)) (max ms0 (d / 20) + 1) - max ms0 (d / 20),
   md)

/-- `find_clean_motion_segment` (smart_loop_trimmer.py).  `probe t` is
the histogram similarity of the frame at time `t` against the reference
frame (`none` when that frame extraction raises, skipping the probe);
`refOk` is false when the reference-frame extraction at 0.1s itself
raises, landing in the outer `except` branch that returns
`(0.2·d, 0.6·d, 0.0)`.  Returns
`(motion_start, clean_duration, motion_strength)`. -/
def find_clean_motion_segment (probe : ℚ → Option ℚ) (refOk : Bool) (d : ℚ) :
    ℚ × ℚ × ℚ :=
  if refOk then
    let ms0 := (scanStart probe (startLadder.takeWhile (fun t => t < 4/5 * d))).getD (d / 10)
    let er := scanEnd probe (arangeTimes (ms0 + 1/2) (17/20 * d) (3/20)) (7/10 * d, 0)
    clampBounds d ms0 er.1 er.2
  else
    (d / 5, 3/5 * d, 0)

/-- C4 (counterexample): at duration 1.0s with every probe fully similar
to the reference (similarity 1), the final clamp pushes
`motion_start + clean_duration` to 1.1 > 0.85·d, so the three claimed
bounds cannot hold together. -/
theorem C4_counterexample_small_duration :
    ¬((find_clean_motion_segment (fun _ => some 1) true 1).1 ≥ 1/20 * 1 ∧
      (find_clean_motion_segment (fun _ => some 1) true 1).1 +
        (find_clean_motion_segment (fun _ => some 1) true 1).2.1 ≤ 17/20 * 1 ∧
      (find_clean_motion_segment (fun _ => some 1) true 1).2.1 ≥ 1) := by
  with_unfolding_all decide

theorem clampBounds_spec (d ms0 me0 md : ℚ) :
    (clampBounds d ms0 me0 md).1 ≥ 1/20 * d ∧
    (clampBounds d ms0 me0 md).2.1 ≥ 1 ∧
    (clampBounds d ms0 me0 md).1 + (clampBounds d ms0 me0 md).2.1
      ≤ max (17/20 * d) ((clampBounds d ms0 me0 md).1 + 1) := by
  unfold clampBounds
  refine ⟨?_, ?_, ?_⟩
  · calc (1/20 : ℚ) * d = d / 20 := by ring
      _ ≤ max ms0 (d / 20) := le_max_right _ _
  · have h := le_max_right (min me0 (17/20 * d)) (max ms0 (d / 20) + 1)
    simp only []
    linarith
  · have h2 : max (min me0 (17/20 * d)) (max ms0 (d / 20) + 1)
        ≤ max (17/20 * d) (max ms0 (d / 20) + 1) :=
      max_le_max (min_le_right _ _) le_rfl
    simp only []
    linarith

/-- C4 (amended): `motion_start ≥ 0.05·d` always holds; when the
reference-frame extraction succeeds, `clean_duration ≥ 1.0` and
`motion_start + clean_duration ≤ max(0.85·d, motion_start + 1.0)` — the
0.85·d bound alone can be exceeded because the ≥ 1s clamp is applied
last; when the reference extraction fails the result is exactly
`(0.2·d, 0.6·d, 0)`. -/
theorem C4_amended_boundary_clamps (probe : ℚ → Option ℚ) (refOk : Bool) (d : ℚ)
    (hd : 0 < d) :
    (find_clean_motion_segment probe refOk d).1 ≥ 1/20 * d ∧
    (refOk = true →
      (find_clean_motion_segment probe refOk d).2.1 ≥ 1 ∧
      (find_clean_motion_segment probe refOk d).1 +
          (find_clean_motion_segment probe refOk d).2.1
        ≤ max (17/20 * d) ((find_clean_motion_segment probe refOk d).1 + 1)) ∧
    (refOk = false →
      find_clean_motion_segment probe refOk d = (d / 5, 3/5 * d, 0)) := by
  cases refOk
  · refine ⟨?_, by simp, fun _ => rfl⟩
    have hred : find_clean_motion_segment probe false d = (d / 5, 3/5 * d, 0) := rfl
    rw [hred]
    show (1/20 : ℚ) * d ≤ d / 5
    linarith
  · exact ⟨(clampBounds_spec d _ _ _).1,
      fun _ => ⟨(clampBounds_spec d _ _ _).2.1, (clampBounds_spec d _ _ _).2.2⟩,
      by simp⟩

theorem C4_boundary_clamps_witness :
    (0 : ℚ) < 2 ∧
    ((find_clean_motion_segment (fun _ => none) true 2).1 ≥ 1/20 * 2 ∧
     (true = true →
       (find_clean_motion_segment (fun _ => none) true 2).2.1 ≥ 1 ∧
       (find_clean_motion_segment (fun _ => none) true 2).1 +
           (find_clean_motion_segment (fun _ => none) true 2).2.1
         ≤ max (17/20 * 2) ((find_clean_motion_segment (fun _ => none) true 2).1 + 1)) ∧
     (true = false →
       find_clean_motion_segment (fun _ => none) true 2 = (2 / 5, 3/5 * 2, 0))) :=
  ⟨by norm_num, C4_amended_boundary_clamps (fun _ => none) true 2 (by norm_num)⟩

/-! ### sequence_and_assemble_verbose.py : path validation in `main` -/

/-- Python truthiness of the resolved path: `not it["path"]` is true for
`None` and for the empty string. -/
def falsyPath (it : VItem) : Bool :=
  match it.path with
  | none => true
  | some p => p == ""

/-- The path-validation step of `main`
(sequence_and_assemble_verbose.py, after the fallback): if any record has
a falsy resolved path, the run prints the offending metadata files (the
listing is truncated to 10 lines, a presentational detail not modelled)
and aborts with `sys.exit(3)`; otherwise the batch continues unchanged
into `analyze` and the manifest write. -/
def validate_paths (items : List VItem) : Except (ℕ × List String) (List VItem) :=
  if (items.filter falsyPath).isEmpty then .ok items
  else .error (3, (items.filter falsyPath).map VItem.meta)

/-- A record with a resolved path. -/
def C6good : VItem := ⟨"good.json", some "ok.mp4", some 0, some 2, "top:emb_start", "top:emb_end"⟩

/-- A record with no resolvable path. -/
def C6bad : VItem := ⟨"bad.json", none, some 0, some 2, "top:emb_start", "top:emb_end"⟩

/-- C6 (counterexample): a batch holding one record with a resolvable
path and one without is NOT continued with the bad record excluded — the
run aborts with exit code 3 and produces no manifest. -/
theorem C6_counterexample_batch_aborts :
    C6good.path = some "ok.mp4" ∧
    validate_paths [C6good, C6bad] = Except.error (3, ["bad.json"]) ∧
    ∀ out, validate_paths [C6good, C6bad] ≠ Except.ok out := by
  refine ⟨rfl, rfl, ?_⟩
  intro out h
  rw [show validate_paths [C6good, C6bad] = Except.error (3, ["bad.json"]) from rfl] at h
  exact Except.noConfusion h

/-- C6 (amended): records with no resolvable path are not excluded with
the batch continuing — their presence ABORTS the whole batch with exit
code 3, reporting the offending metadata files; only a batch whose
records all have truthy paths proceeds (unchanged). -/
theorem C6_amended_abort_on_missing_path (items : List VItem) :
    (items.any falsyPath = false → validate_paths items = Except.ok items) ∧
    (items.any falsyPath = true →
      validate_paths items = Except.error (3, (items.filter falsyPath).map VItem.meta) ∧
      ∀ out, validate_paths items ≠ Except.ok out) := by
  constructor
  · intro h
    have hf : items.filter falsyPath = [] := by
      rw [List.filter_eq_nil_iff]
      exact fun a ha => (List.any_eq_false.mp h) a ha
    simp [validate_paths, hf]
  · intro h
    have hf : ¬(items.filter falsyPath).isEmpty = true := by
      rcases List.any_eq_true.mp h with ⟨a, ha, hfa⟩
      have : a ∈ items.filter falsyPath := List.mem_filter.mpr ⟨ha, hfa⟩
      intro he
      rw [List.isEmpty_iff] at he
      simp [he] at this
    refine ⟨?_, ?_⟩
    · rw [validate_paths, if_neg hf]
    · intro out hcontra
      rw [validate_paths, if_neg hf] at hcontra
      exact Except.noConfusion hcontra

theorem C6_abort_witness :
    ([C6good].any falsyPath = false ∧ validate_paths [C6good] = Except.ok [C6good]) ∧
    ([C6good, C6bad].any falsyPath = true ∧
      validate_paths [C6good, C6bad]
        = Except.error (3, ([C6good, C6bad].filter falsyPath).map VItem.meta) ∧
      ∀ out, validate_paths [C6good, C6bad] ≠ Except.ok out) :=
  ⟨⟨by decide, (C6_amended_abort_on_missing_path [C6good]).1 (by decide)⟩,
   ⟨by decide, (C6_amended_abort_on_missing_path [C6good, C6bad]).2 (by decide)⟩⟩

/-! ### stitch_from_manifest.py : item consumption order -/

/-- One manifest item as read back by `stitch_from_manifest.py`
(only the fields that script touches). -/
structure MItem where
  path : Option String
  t0 : Option ℚ
  t1 : Option ℚ
deriving Repr, DecidableEq

/-- `keyf`: the sort key `(it.get("t0", 0.0), it.get("t1", 0.0))`. -/
def keyf (it : MItem) : ℚ × ℚ :=
  (it.t0.getD 0, it.t1.getD 0)

/-- Python tuple comparison of the sort keys (lexicographic). -/
def manifestLe (a b : MItem) : Bool :=
  decide ((keyf a).1 < (keyf b).1 ∨ ((keyf a).1 = (keyf b).1 ∧ (keyf a).2 ≤ (keyf b).2))

/-- `items = sorted(items, key=keyf)` — the stitcher re-sorts the
manifest items by their time bounds before anything else. -/
def stitch_order (items : List MItem) : List MItem :=
  items.mergeSort manifestLe

/-- The file-list pass of `main` (stitch_from_manifest.py): walk the
time-sorted items, skip falsy paths, die listing missing files if any
path does not exist, die when no files remain, otherwise concatenate the
files in that order. -/
def stitch_files (fsExists : String → Bool) (items : List MItem) :
    Except (List String) (List String) :=
  let paths := (stitch_order items).filterMap
      (fun it => match it.path with
        | some p => if p = "" then none else some p
        | none => none)
  if !(paths.filter (fun p => !fsExists p)).isEmpty then
    .error (paths.filter (fun p => !fsExists p))
  else if paths.isEmpty then .error []   -- `die("No existing files in manifest paths")`
  else .ok paths

/-- A late item listed first in the manifest. -/
def mi1 : MItem := ⟨some "b.mp4", some 5, some 6⟩

/-- An early item listed second. -/
def mi2 : MItem := ⟨some "a.mp4", some 0, some 1⟩

/-- C9 (counterexample): the stitcher does NOT consume the manifest in
list order: with items listed [t0=5, t0=0] it concatenates the t0=0 file
first, so output playback order differs from the manifest list order. -/
theorem C9_counterexample_stitcher_resorts :
    stitch_files (fun _ => true) [mi1, mi2] = Except.ok ["a.mp4", "b.mp4"] ∧
    [mi1, mi2].filterMap MItem.path = ["b.mp4", "a.mp4"] ∧
    (["a.mp4", "b.mp4"] : List String) ≠ ["b.mp4", "a.mp4"] := by
  refine ⟨?_, by decide, by decide⟩
  with_unfolding_all decide

theorem manifestLe_trans (a b c : MItem)
    (h1 : manifestLe a b = true) (h2 : manifestLe b c = true) : manifestLe a c = true := by
  simp only [manifestLe, decide_eq_true_eq] at *
  rcases h1 with h1 | ⟨h1e, h1le⟩ <;> rcases h2 with h2 | ⟨h2e, h2le⟩
  · exact Or.inl (lt_trans h1 h2)
  · exact Or.inl (h2e ▸ h1)
  · exact Or.inl (h1e ▸ h2)
  · exact Or.inr ⟨h1e.trans h2e, le_trans h1le h2le⟩

theorem manifestLe_total (a b : MItem) : manifestLe a b || manifestLe b a := by
  simp only [manifestLe, Bool.or_eq_true, decide_eq_true_eq]
  rcases lt_trichotomy (keyf a).1 (keyf b).1 with h | h | h
  · exact Or.inl (Or.inl h)
  · rcases le_total (keyf a).2 (keyf b).2 with h2 | h2
    · exact Or.inl (Or.inr ⟨h, h2⟩)
    · exact Or.inr (Or.inr ⟨h.symm, h2⟩)
  · exact Or.inr (Or.inl h)

/-- C9 (amended): the stitcher's playback order is the stable
`(t0, t1)`-sort of the manifest items (a permutation of them), NOT the
manifest list order; the two coincide exactly when the manifest is
already sorted by `(t0, t1)`. -/
theorem C9_amended_stitch_order_is_time_sorted (items : List MItem) :
    (stitch_order items).Perm items ∧
    (stitch_order items).Pairwise (fun a b => manifestLe a b = true) ∧
    (items.Pairwise (fun a b => manifestLe a b = true) → stitch_order items = items) := by
  refine ⟨List.mergeSort_perm items manifestLe, ?_, ?_⟩
  · exact List.sorted_mergeSort
      (fun a b c => manifestLe_trans a b c) manifestLe_total items
  · intro hs
    exact List.mergeSort_of_sorted hs

theorem C9_stitch_order_witness :
    [mi2, mi1].Pairwise (fun a b => manifestLe a b = true) ∧
    ((stitch_order [mi2, mi1]).Perm [mi2, mi1] ∧
     (stitch_order [mi2, mi1]).Pairwise (fun a b => manifestLe a b = true) ∧
     ([mi2, mi1].Pairwise (fun a b => manifestLe a b = true) →
       stitch_order [mi2, mi1] = [mi2, mi1])) :=
  ⟨by with_unfolding_all decide, C9_amended_stitch_order_is_time_sorted [mi2, mi1]⟩

/-! ### smart_loop_trimmer.py : `process_smart_manifest_with_loop_detection` -/

/-- One smart-manifest item (the fields written by
`create_smart_manifest` plus the four provenance fields added by the
loop-trimming pass, absent on input). -/
structure SItem where
  path : Option String
  t0 : ℚ
  t1 : ℚ
  base : String
  transition_in : Option Transition
  original_duration : Option ℚ := none
  start_trim : Option ℚ := none
  clean_duration : Option ℚ := none
  motion_strength : Option ℚ := none
deriving Repr, DecidableEq

/-- The smart manifest document. -/
structure SmartManifest where
  version : String
  items : List SItem
  transitions : List Transition
  total_duration : ℚ
  loop_detection : Option (ℕ × ℚ) := none
deriving Repr, DecidableEq

/-- `if not video_path or not os.path.exists(video_path): continue` —
an item is kept only when its path is truthy and names an existing file
(`fsExists` is the file-system oracle). -/
def keepItem (fsExists : String → Bool) (it : SItem) : Bool :=
  match it.path with
  | none => false
  | some p => !(p == "") && fsExists p

/-- The per-item update of the loop-trimming pass: `dur p` models
`get_video_duration(p)` and `trim p d` models
`find_clean_motion_segment(p, d)`; the four provenance fields are added
and `t1` is rewritten to `t0 + clean_duration`; every other field is
copied (`item.copy()`). -/
def refineItem (dur : String → ℚ) (trim : String → ℚ → ℚ × ℚ × ℚ) (it : SItem) : SItem :=
  match it.path with
  | none => it
  | some p =>
      { it with
        original_duration := some (dur p),
        start_trim := some (trim p (dur p)).1,
        clean_duration := some (trim p (dur p)).2.1,
        motion_strength := some (trim p (dur p)).2.2,
        t1 := it.t0 + (trim p (dur p)).2.1 }

/-- The item loop of `process_smart_manifest_with_loop_detection`. -/
def process_items (fsExists : String → Bool) (dur : String → ℚ)
    (trim : String → ℚ → ℚ × ℚ × ℚ) : List SItem → List SItem
  | [] => []
  | it :: rest =>
      if keepItem fsExists it then
        refineItem dur trim it :: process_items fsExists dur trim rest
      else
        process_items fsExists dur trim rest

/-- `total_saved_time`: sum of `original_duration − clean_duration` over
the processed items. -/
def totalSaved (pis : List SItem) : ℚ :=
  (pis.map (fun it => it.original_duration.getD 0 - it.clean_duration.getD 0)).sum

/-- `process_smart_manifest_with_loop_detection` (smart_loop_trimmer.py):
dies on an empty input item list; otherwise replaces `items` by the
processed list, adds the `loop_detection` block, and WRITES the updated
manifest; the returned Bool records that the summary line
`total_saved_time / len(processed_items)` printed AFTER the write raises
`ZeroDivisionError` (true exactly when every item was dropped).  The
`transitions` list of the loaded document is never touched. -/
def process_smart_manifest_with_loop_detection (fsExists : String → Bool)
    (dur : String → ℚ) (trim : String → ℚ → ℚ × ℚ × ℚ) (m : SmartManifest) :
    Except String (SmartManifest × Bool) :=
  if m.items.isEmpty then Except.error "No items in manifest"
  else
    let pis := process_items fsExists dur trim m.items
    let out : SmartManifest :=
      { m with
        items := pis
        loop_detection := some (pis.length, totalSaved pis) }
    Except.ok (out, pis.isEmpty)

theorem process_items_eq_filter_map (fsExists : String → Bool) (dur : String → ℚ)
    (trim : String → ℚ → ℚ × ℚ × ℚ) :
    ∀ items : List SItem,
      process_items fsExists dur trim items
        = (items.filter (keepItem fsExists)).map (refineItem dur trim)
  | [] => rfl
  | it :: rest => by
      by_cases h : keepItem fsExists it = true
      · simp [process_items, List.filter_cons, h,
          process_items_eq_filter_map fsExists dur trim rest]
      · simp [process_items, List.filter_cons, h,
          process_items_eq_filter_map fsExists dur trim rest]

/-- A single transition record used in the C10 scenarios. -/
def tAB : Transition := ⟨"a", "b", "crossfade", 1/2, 27/40⟩

/-- A manifest whose only item has no path. -/
def crashManifest : SmartManifest :=
  ⟨"smart_v1", [⟨none, 0, 5, "x", none, none, none, none, none⟩], [tAB], 5, none⟩

/-- C10 (counterexample): dropping the path-less items is not error-free:
when EVERY item is dropped the updated manifest (empty items, transitions
unchanged) is still written, but the pass then raises `ZeroDivisionError`
(the `true` flag) computing the average-per-clip summary. -/
theorem C10_counterexample_all_dropped_crash :
    process_smart_manifest_with_loop_detection (fun _ => true) (fun _ => 5)
        (fun _ _ => (1, 2, 0)) crashManifest
      = Except.ok ({ crashManifest with items := [], loop_detection := some (0, 0) }, true) := by
  with_unfolding_all decide

/-- C10 (amended): on a non-empty item list the pass writes a manifest
whose items are exactly the refinements of the kept items (truthy path
naming an existing file) in their original relative order, with the four
provenance fields added and `t1 = t0 + clean_duration`, every other field
unchanged; the transitions list is written out untouched even when items
are dropped; dropping raises no error as long as at least one item is
kept, and when every item is dropped the pass still writes the manifest
but then raises `ZeroDivisionError` in the summary (the `crash` flag). -/
theorem C10_amended_loop_refinement_frame (fsExists : String → Bool)
    (dur : String → ℚ) (trim : String → ℚ → ℚ × ℚ × ℚ) (m : SmartManifest)
    (hne : m.items ≠ []) :
    ∃ out crash,
      process_smart_manifest_with_loop_detection fsExists dur trim m
        = Except.ok (out, crash) ∧
      out.items = (m.items.filter (keepItem fsExists)).map (refineItem dur trim) ∧
      out.transitions = m.transitions ∧
      out.version = m.version ∧
      (crash = true ↔ m.items.filter (keepItem fsExists) = []) ∧
      (∀ it p, it.path = some p →
        (refineItem dur trim it).base = it.base ∧
        (refineItem dur trim it).t0 = it.t0 ∧
        (refineItem dur trim it).path = it.path ∧
        (refineItem dur trim it).transition_in = it.transition_in ∧
        (refineItem dur trim it).original_duration = some (dur p) ∧
        (refineItem dur trim it).start_trim = some (trim p (dur p)).1 ∧
        (refineItem dur trim it).clean_duration = some (trim p (dur p)).2.1 ∧
        (refineItem dur trim it).motion_strength = some (trim p (dur p)).2.2 ∧
        (refineItem dur trim it).t1 = it.t0 + (trim p (dur p)).2.1) := by
  have hne2 : ¬m.items.isEmpty = true := by
    simpa [List.isEmpty_iff] using hne
  have hpis := process_items_eq_filter_map fsExists dur trim m.items
  refine ⟨{ m with
      items := process_items fsExists dur trim m.items
      loop_detection := some ((process_items fsExists dur trim m.items).length,
        totalSaved (process_items fsExists dur trim m.items)) },
    (process_items fsExists dur trim m.items).isEmpty,
    ?_, ?_, rfl, rfl, ?_, ?_⟩
  · rw [process_smart_manifest_with_loop_detection, if_neg hne2]
  · exact hpis
  · rw [List.isEmpty_iff, hpis, List.map_eq_nil_iff]
  · intro it p hp
    simp [refineItem, hp]

/-- A manifest with one kept item and one dropped item. -/
def mixedManifest : SmartManifest :=
  ⟨"smart_v1",
   [⟨some "a.mp4", 0, 5, "a", none, none, none, none, none⟩,
    ⟨none, 5, 10, "x", none, none, none, none, none⟩],
   [tAB], 10, none⟩

theorem C10_loop_refinement_witness :
    mixedManifest.items ≠ [] ∧
    ∃ out crash,
      process_smart_manifest_with_loop_detection (fun _ => true) (fun _ => 5)
          (fun _ _ => (1, 2, 0)) mixedManifest
        = Except.ok (out, crash) ∧
      out.items = (mixedManifest.items.filter (keepItem (fun _ => true))).map
        (refineItem (fun _ => 5) (fun _ _ => (1, 2, 0))) ∧
      out.transitions = mixedManifest.transitions ∧
      out.version = mixedManifest.version ∧
      (crash = true ↔ mixedManifest.items.filter (keepItem (fun _ => true)) = []) ∧
      (∀ it p, it.path = some p →
        (refineItem (fun _ => 5) (fun _ _ => ((1 : ℚ), (2 : ℚ), (0 : ℚ))) it).base = it.base ∧
        (refineItem (fun _ => 5) (fun _ _ => (1, 2, 0)) it).t0 = it.t0 ∧
        (refineItem (fun _ => 5) (fun _ _ => (1, 2, 0)) it).path = it.path ∧
        (refineItem (fun _ => 5) (fun _ _ => (1, 2, 0)) it).transition_in = it.transition_in ∧
        (refineItem (fun _ => 5) (fun _ _ => (1, 2, 0)) it).original_duration = some 5 ∧
        (refineItem (fun _ => 5) (fun _ _ => (1, 2, 0)) it).start_trim = some 1 ∧
        (refineItem (fun _ => 5) (fun _ _ => (1, 2, 0)) it).clean_duration = some 2 ∧
        (refineItem (fun _ => 5) (fun _ _ => (1, 2, 0)) it).motion_strength = some 0 ∧
        (refineItem (fun _ => 5) (fun _ _ => (1, 2, 0)) it).t1 = it.t0 + 2) :=
  ⟨by decide,
   C10_amended_loop_refinement_frame (fun _ => true) (fun _ => 5)
     (fun _ _ => (1, 2, 0)) mixedManifest (by decide)⟩

end BRKN
